import Mathlib

/-!
Verification development for the device-dispatched geometric kernel layer of
Open3D (files `cpp/open3d/t/geometry/kernel/PointCloud.cpp` and
`cpp/open3d/t/pipelines/kernel/RGBDOdometry.cpp`).

Scalars are modelled as rationals (exact values; the float32/float64
distinction is tracked as a dtype tag on tensors).  A tensor is a handle:
shape/dtype/device metadata, a contiguity flag, a buffer identifier (two
handles with the same identifier alias the same underlying buffer, which is
how `Tensor::Contiguous()` returning `*this` for already-contiguous tensors
is captured), and the logical entry values in row-major order.
-/

set_option autoImplicit false

namespace O3D

/-- Scalar dtype tag of a tensor. -/
inductive Dtype where
  | float32
  | float64
  | other
deriving DecidableEq, Repr

/-- Device type: the dispatch layer handles CPU and CUDA; anything else hits
the "unimplemented device" branch. -/
inductive DeviceType where
  | cpu
  | cuda
  | other
deriving DecidableEq, Repr

/-- A concrete device: a type plus an index (e.g. `CPU:0`, `CUDA:1`). -/
structure Device where
  dtyp : DeviceType
  index : Nat
deriving DecidableEq, Repr

/-- The host device `CPU:0`. -/
def host : Device := ⟨DeviceType.cpu, 0⟩

/-- A tensor handle: metadata, a contiguity flag, the identifier of the
underlying buffer, and the logical entry values in row-major order. -/
structure Tensor where
  shape : List Nat
  dtype : Dtype
  device : Device
  contiguous : Bool
  id : Nat
  values : List ℚ
deriving DecidableEq, Repr

/-- Modelled from the spec: `Tensor::To(device, dtype)` of the external
Buffer/Tensor collaborator (§3, §6 — its implementation is not under `src/`):
it normalizes the tensor to the target device and dtype, producing a tensor
holding the same logical entry values in dense row-major order (float32 to
float64 conversion is exact, so values are unchanged). -/
def Tensor.To (t : Tensor) (dev : Device) (dt : Dtype) : Tensor :=
  { t with device := dev, dtype := dt, contiguous := true }

/-- Modelled from the spec: `Tensor::Contiguous()` of the external collaborator
(§3, §6). An already-contiguous tensor is returned as-is (same buffer); a
non-contiguous one is copied into a fresh dense buffer (`fresh` is the new
buffer identifier) holding the same logical values. -/
def tensorContiguous (t : Tensor) (fresh : Nat) : Tensor :=
  if t.contiguous then t else { t with id := fresh, contiguous := true }

/-- In-place mutation of a buffer, reflected onto a tensor handle: if `t`
views buffer `bid`, its visible values become `newVals`; otherwise `t` is
unaffected. -/
def writeBuffer (t : Tensor) (bid : Nat) (newVals : List ℚ) : Tensor :=
  if t.id = bid then { t with values := newVals } else t

/-- Error kinds of the kernel layer (each corresponds to one
`utility::LogError` / assertion site; `LogError` is fatal, so an error ends
the call before any later statement runs). -/
inductive KErr where
  /-- "Both or none of image_colors and colors must have values." -/
  | pairMismatch
  /-- `AssertShape({4, 4})` failure on the transformation. -/
  | badShape
  /-- `AssertDtype` failure. -/
  | badDtype
  /-- `AssertDevice` failure. -/
  | badDevice
  /-- "Invalid Transformation Matrix. Only Rigid Transformation is supported." -/
  | invalidTransformation
  /-- "Unimplemented device". -/
  | unimplementedDevice
  /-- GPU path taken without the CUDA backend compiled in. -/
  | cudaNotBuilt
  /-- "Inconsistent device between depth_map vs intrinsics". -/
  | deviceMismatch
deriving DecidableEq, Repr

/-- Embeds `IsValidRigidTransformation` (PointCloud.cpp, lines 107–119): reads the
sixteen doubles at flat indices and rejects when any of the nine rotation
block entries (flat 0,1,2,4,5,6,8,9,10) exceeds 1 or any bottom-row entry
(flat 12,13,14) is nonzero.  Flat indices 3, 7, 11, 15 are not read. -/
def IsValidRigidTransformation (p : List ℚ) : Bool :=
  if 1 < p.getD 0 0 ∨ 1 < p.getD 1 0 ∨ 1 < p.getD 2 0 ∨ 1 < p.getD 4 0 ∨
      1 < p.getD 5 0 ∨ 1 < p.getD 6 0 ∨ 1 < p.getD 8 0 ∨ 1 < p.getD 9 0 ∨
      1 < p.getD 10 0 ∨ p.getD 12 0 ≠ 0 ∨ p.getD 13 0 ≠ 0 ∨ p.getD 14 0 ≠ 0 then
    false
  else
    true

/-- Modelled from the spec: the numeric core of `TransformCPU`/`TransformCUDA`
(not under `src/`; §4.3): each point row `(x, y, z)` becomes `R·p + t` with
`R` the upper-left 3×3 block and `t` the fourth column of the row-major 4×4
matrix `m`. -/
def transformPointRow (m : List ℚ) (x y z : ℚ) : List ℚ :=
  [m.getD 0 0 * x + m.getD 1 0 * y + m.getD 2 0 * z + m.getD 3 0,
   m.getD 4 0 * x + m.getD 5 0 * y + m.getD 6 0 * z + m.getD 7 0,
   m.getD 8 0 * x + m.getD 9 0 * y + m.getD 10 0 * z + m.getD 11 0]

/-- Modelled from the spec: `TransformCPU`/`TransformCUDA` applied to a flat
row-major (N, 3) point buffer; every 3-row is mapped through `R·p + t`. -/
def transformPointsVals (m : List ℚ) : List ℚ → List ℚ
  | x :: y :: z :: rest => transformPointRow m x y z ++ transformPointsVals m rest
  | rest => rest

/-- Modelled from the spec: the normal part of `TransformCPU`/`TransformCUDA`
(§4.3): normals are rotated only, `n' = R·n`, no translation. -/
def transformNormalRow (m : List ℚ) (x y z : ℚ) : List ℚ :=
  [m.getD 0 0 * x + m.getD 1 0 * y + m.getD 2 0 * z,
   m.getD 4 0 * x + m.getD 5 0 * y + m.getD 6 0 * z,
   m.getD 8 0 * x + m.getD 9 0 * y + m.getD 10 0 * z]

/-- Modelled from the spec: normal rotation over a flat (N, 3) buffer. -/
def transformNormalsVals (m : List ℚ) : List ℚ → List ℚ
  | x :: y :: z :: rest => transformNormalRow m x y z ++ transformNormalsVals m rest
  | rest => rest

/-- Outcome of the points-only `Transform` overload: the error (if the call
aborted at a `LogError`), the caller-visible `points` variable after the call
(the original handle when the call aborted before the final reassignment),
and whether a backend kernel was invoked. -/
structure TransformResult where
  err : Option KErr
  points : Tensor
  kernelRan : Bool
deriving DecidableEq, Repr

/-- Embeds `Transform(points, transformation)` (PointCloud.cpp, lines 121–149),
statement by statement: shape/dtype/device assertions; the rigid-transform
validity check on the host-float64 view of the matrix; `points_contiguous =
points.Contiguous()`; backend dispatch — the kernel is invoked on `points`
itself (the original handle) and mutates that buffer in place; finally
`points = points_contiguous` reassigns the caller's variable to the
contiguous handle.  `cudaBuilt` models the `BUILD_CUDA_MODULE` build flag;
`CUDA_CALL` without it is modelled from the spec (§6) as a fatal
configuration error. -/
def Transform1 (points transformation : Tensor) (cudaBuilt : Bool) : TransformResult :=
  if transformation.shape ≠ [4, 4] then ⟨some KErr.badShape, points, false⟩
  else if transformation.dtype ≠ points.dtype then ⟨some KErr.badDtype, points, false⟩
  else if transformation.device ≠ points.device then ⟨some KErr.badDevice, points, false⟩
  else if ¬ IsValidRigidTransformation (transformation.To host Dtype.float64).values then
    ⟨some KErr.invalidTransformation, points, false⟩
  else
    let points_contiguous := tensorContiguous points (points.id + transformation.id + 1)
    if points.device.dtyp = DeviceType.cpu then
      let newVals := transformPointsVals transformation.values points.values
      ⟨none, writeBuffer points_contiguous points.id newVals, true⟩
    else if points.device.dtyp = DeviceType.cuda then
      if cudaBuilt then
        let newVals := transformPointsVals transformation.values points.values
        ⟨none, writeBuffer points_contiguous points.id newVals, true⟩
      else ⟨some KErr.cudaNotBuilt, points, false⟩
    else ⟨some KErr.unimplementedDevice, points, false⟩

/-- Outcome of the points-plus-normals `Transform` overload. -/
structure Transform2Result where
  err : Option KErr
  points : Tensor
  normals : Tensor
  kernelRan : Bool
deriving DecidableEq, Repr

/-- The two in-place buffer writes a `TransformCPU(points, normals, T)` kernel
invocation performs, reflected onto one tensor handle. -/
def kernelWrite2 (t : Tensor) (pid : Nat) (newP : List ℚ) (nid : Nat) (newN : List ℚ) :
    Tensor :=
  writeBuffer (writeBuffer t pid newP) nid newN

/-- Embeds `Transform(points, normals, transformation)` (PointCloud.cpp, lines
151–185), statement by statement: the assertions in source order; the
validity check; contiguous handles for points, normals and the matrix; the
backend kernel invoked on the original `points` and `normals` handles with
`transformation_contiguous`, mutating both buffers in place; finally the
caller's variables are reassigned to the contiguous handles. -/
def Transform2 (points normals transformation : Tensor) (cudaBuilt : Bool) :
    Transform2Result :=
  if transformation.shape ≠ [4, 4] then ⟨some KErr.badShape, points, normals, false⟩
  else if transformation.dtype ≠ points.dtype then
    ⟨some KErr.badDtype, points, normals, false⟩
  else if normals.dtype ≠ points.dtype then ⟨some KErr.badDtype, points, normals, false⟩
  else if transformation.device ≠ points.device then
    ⟨some KErr.badDevice, points, normals, false⟩
  else if normals.device ≠ points.device then ⟨some KErr.badDevice, points, normals, false⟩
  else if ¬ IsValidRigidTransformation (transformation.To host Dtype.float64).values then
    ⟨some KErr.invalidTransformation, points, normals, false⟩
  else
    let base := points.id + normals.id + transformation.id
    let points_contiguous := tensorContiguous points (base + 1)
    let normals_contiguous := tensorContiguous normals (base + 2)
    let transformation_contiguous := tensorContiguous transformation (base + 3)
    if points.device.dtyp = DeviceType.cpu then
      let newP := transformPointsVals transformation_contiguous.values points.values
      let newN := transformNormalsVals transformation_contiguous.values normals.values
      ⟨none, kernelWrite2 points_contiguous points.id newP normals.id newN,
        kernelWrite2 normals_contiguous points.id newP normals.id newN, true⟩
    else if points.device.dtyp = DeviceType.cuda then
      if cudaBuilt then
        let newP := transformPointsVals transformation_contiguous.values points.values
        let newN := transformNormalsVals transformation_contiguous.values normals.values
        ⟨none, kernelWrite2 points_contiguous points.id newP normals.id newN,
          kernelWrite2 normals_contiguous points.id newP normals.id newN, true⟩
      else ⟨some KErr.cudaNotBuilt, points, normals, false⟩
    else ⟨some KErr.unimplementedDevice, points, normals, false⟩

/-- What the dispatch layer of `Unproject`/`Project` hands to the selected
backend kernel: the backend's device type and the intrinsics/extrinsics
tensors exactly as passed to the kernel call. -/
structure ImageKernelCall where
  backend : DeviceType
  intrinsics : Tensor
  extrinsics : Tensor
deriving DecidableEq, Repr

/-- Embeds `Unproject` (PointCloud.cpp, lines 42–76): the paired-optional presence
check; `intrinsics_d`/`extrinsics_d` are host float64 contiguous views; then
device dispatch (`CUDA_CALL` without the CUDA backend is modelled from the
spec, §6, as a fatal configuration error).  The result records which backend
ran and the matrix tensors it received.  The depth/points/colors tensors and
the scalar arguments are carried through to the kernel unchanged. -/
def Unproject (depth : Tensor) (image_colors : Option Tensor) (points : Tensor)
    (colors : Option Tensor) (intrinsics extrinsics : Tensor)
    (depth_scale depth_max : ℚ) (stride : Int) (cudaBuilt : Bool) :
    Except KErr ImageKernelCall :=
  if image_colors.isSome ≠ colors.isSome then Except.error KErr.pairMismatch
  else if depth.device.dtyp = DeviceType.cpu then
    Except.ok ⟨DeviceType.cpu, tensorContiguous (intrinsics.To host Dtype.float64)
      intrinsics.id, tensorContiguous (extrinsics.To host Dtype.float64) extrinsics.id⟩
  else if depth.device.dtyp = DeviceType.cuda then
    if cudaBuilt then
      Except.ok ⟨DeviceType.cuda, tensorContiguous (intrinsics.To host Dtype.float64)
        intrinsics.id, tensorContiguous (extrinsics.To host Dtype.float64) extrinsics.id⟩
    else Except.error KErr.cudaNotBuilt
  else Except.error KErr.unimplementedDevice

/-- Embeds `Project` (PointCloud.cpp, lines 78–105): the paired-optional presence
check, then device dispatch.  Unlike `Unproject`, the intrinsics and
extrinsics are passed to the backend exactly as received — no host/float64
normalization appears in this function. -/
def Project (depth : Tensor) (image_colors : Option Tensor) (points : Tensor)
    (colors : Option Tensor) (intrinsics extrinsics : Tensor)
    (depth_scale depth_max : ℚ) (cudaBuilt : Bool) :
    Except KErr ImageKernelCall :=
  if image_colors.isSome ≠ colors.isSome then Except.error KErr.pairMismatch
  else if depth.device.dtyp = DeviceType.cpu then
    Except.ok ⟨DeviceType.cpu, intrinsics, extrinsics⟩
  else if depth.device.dtyp = DeviceType.cuda then
    if cudaBuilt then Except.ok ⟨DeviceType.cuda, intrinsics, extrinsics⟩
    else Except.error KErr.cudaNotBuilt
  else Except.error KErr.unimplementedDevice

/-- What `CreateVertexMap` hands to the selected backend: the backend device
type and the intrinsics tensor exactly as passed. -/
structure VertexMapCall where
  backend : DeviceType
  intrinsics : Tensor
deriving DecidableEq, Repr

/-- Embeds `CreateVertexMap` (RGBDOdometry.cpp, lines 35–60): the depth map and the
intrinsics must be on the same device (else a fatal device-mismatch error);
then device dispatch, with the `BUILD_CUDA_MODULE` conditional explicit in
the source.  The intrinsics are passed to the backend unchanged. -/
def CreateVertexMap (depth_map intrinsics : Tensor) (depth_scale depth_max : ℚ)
    (cudaBuilt : Bool) : Except KErr VertexMapCall :=
  if depth_map.device ≠ intrinsics.device then Except.error KErr.deviceMismatch
  else if depth_map.device.dtyp = DeviceType.cpu then Except.ok ⟨DeviceType.cpu, intrinsics⟩
  else if depth_map.device.dtyp = DeviceType.cuda then
    if cudaBuilt then Except.ok ⟨DeviceType.cuda, intrinsics⟩
    else Except.error KErr.cudaNotBuilt
  else Except.error KErr.unimplementedDevice

/-- Embeds `CreateNormalMap` (RGBDOdometry.cpp, lines 62–82): pure device dispatch on
the vertex map's device, with the explicit `BUILD_CUDA_MODULE` conditional.
The result records which backend ran. -/
def CreateNormalMap (vertex_map : Tensor) (depth_scale depth_max depth_diff : ℚ)
    (cudaBuilt : Bool) : Except KErr DeviceType :=
  if vertex_map.device.dtyp = DeviceType.cpu then Except.ok DeviceType.cpu
  else if vertex_map.device.dtyp = DeviceType.cuda then
    if cudaBuilt then Except.ok DeviceType.cuda
    else Except.error KErr.cudaNotBuilt
  else Except.error KErr.unimplementedDevice

/-- Modelled from the spec: the per-pixel compare-and-update of the
`ProjectCPU`/`ProjectCUDA` backend kernels (not under `src/`; §4.2): a point
whose projected metric depth `d` is positive and at most `depth_max` and
whose pixel is inside the image writes its scaled depth `d * depth_scale`
into the pixel when the pixel is still empty (value 0) or the new stored
value is smaller; otherwise the image is unchanged. -/
def zbufferWrite (depth_max depth_scale : ℚ) (img : List ℚ) (pix : Nat) (d : ℚ) :
    List ℚ :=
  if 0 < d ∧ d ≤ depth_max ∧ pix < img.length then
    if img.getD pix 0 = 0 ∨ d * depth_scale < img.getD pix 0 then
      img.set pix (d * depth_scale)
    else img
  else img

/-- Modelled from the spec: the `Project` backend kernel's scan over the point
cloud (§4.2); each point carries its projected pixel index and metric depth,
and the per-pixel compare-and-update resolves collisions. -/
def projectScan (depth_max depth_scale : ℚ) (img : List ℚ) (pts : List (Nat × ℚ)) :
    List ℚ :=
  pts.foldl (fun acc pd => zbufferWrite depth_max depth_scale acc pd.1 pd.2) img

/-- Row-major entries of the 4×4 identity matrix. -/
def eyeVals : List ℚ := [1, 0, 0, 0, 0, 1, 0, 0, 0, 0, 1, 0, 0, 0, 0, 1]

/-- The 4×4 identity transformation tensor with the given dtype, device and
buffer identifier. -/
def eye4 (dt : Dtype) (dev : Device) (bid : Nat) : Tensor :=
  ⟨[4, 4], dt, dev, true, bid, eyeVals⟩

/-! ### Helper lemmas -/

theorem getD_set_ne {l : List ℚ} {i j : Nat} (h : i ≠ j) (a d : ℚ) :
    (l.set i a).getD j d = l.getD j d := by
  simp [List.getD_eq_getElem?_getD, List.getElem?_set_ne h]

theorem To_values (t : Tensor) (dev : Device) (dt : Dtype) :
    (t.To dev dt).values = t.values := rfl

/-- The validation predicate rejects exactly when one of the nine rotation
block entries exceeds 1 or one of the three bottom-row entries is nonzero. -/
theorem IsValidRigidTransformation_eq_false_iff (p : List ℚ) :
    IsValidRigidTransformation p = false ↔
      (1 < p.getD 0 0 ∨ 1 < p.getD 1 0 ∨ 1 < p.getD 2 0 ∨ 1 < p.getD 4 0 ∨
        1 < p.getD 5 0 ∨ 1 < p.getD 6 0 ∨ 1 < p.getD 8 0 ∨ 1 < p.getD 9 0 ∨
        1 < p.getD 10 0 ∨ p.getD 12 0 ≠ 0 ∨ p.getD 13 0 ≠ 0 ∨ p.getD 14 0 ≠ 0) := by
  unfold IsValidRigidTransformation
  split <;> simp_all

/-- When the three assertions pass, the points-only `Transform` reports the
invalid-transformation error exactly when the validity check fails. -/
theorem Transform1_err_invalid_iff (points transformation : Tensor) (b : Bool)
    (hsh : transformation.shape = [4, 4]) (hdt : transformation.dtype = points.dtype)
    (hdev : transformation.device = points.device) :
    ((Transform1 points transformation b).err = some KErr.invalidTransformation ↔
      IsValidRigidTransformation transformation.values = false) := by
  unfold Transform1
  rw [if_neg (by simp [hsh]), if_neg (by simp [hdt]), if_neg (by simp [hdev]),
    To_values]
  cases hval : IsValidRigidTransformation transformation.values with
  | false => simp
  | true =>
    simp only [Bool.not_eq_true, ite_false, Bool.true_eq_false, iff_false]
    cases h3 : points.device.dtyp with
    | cpu => simp [h3]
    | cuda => cases b <;> simp [h3]
    | other => simp [h3]

theorem getD_set_unchecked (l : List ℚ) (q3 q7 q11 q15 : ℚ) (j : Nat)
    (h3 : j ≠ 3) (h7 : j ≠ 7) (h11 : j ≠ 11) (h15 : j ≠ 15) :
    ((((l.set 3 q3).set 7 q7).set 11 q11).set 15 q15).getD j 0 = l.getD j 0 := by
  rw [getD_set_ne (Ne.symm h15), getD_set_ne (Ne.symm h11), getD_set_ne (Ne.symm h7),
    getD_set_ne (Ne.symm h3)]

/-! ### Sample tensors used by the witnesses -/

/-- A contiguous CPU float32 (1, 3) points tensor. -/
def pSample : Tensor := ⟨[1, 3], Dtype.float32, ⟨DeviceType.cpu, 0⟩, true, 0, [1, 2, 3]⟩

/-- A contiguous CPU float32 (1, 3) normals tensor. -/
def nSample : Tensor := ⟨[1, 3], Dtype.float32, ⟨DeviceType.cpu, 0⟩, true, 1, [0, 0, 1]⟩

/-- A valid rigid transformation: identity rotation with translation (5, 6, 7). -/
def tSample : Tensor :=
  ⟨[4, 4], Dtype.float32, ⟨DeviceType.cpu, 0⟩, true, 2,
    [1, 0, 0, 5, 0, 1, 0, 6, 0, 0, 1, 7, 0, 0, 0, 1]⟩

/-- An invalid transformation: the entry 2 at flat index 0 exceeds the
rotation-block bound. -/
def tBadSample : Tensor :=
  ⟨[4, 4], Dtype.float32, ⟨DeviceType.cpu, 0⟩, true, 2,
    [2, 0, 0, 0, 0, 1, 0, 0, 0, 0, 1, 0, 0, 0, 0, 1]⟩

/-! ### Claim C1 -/

/-- C1: for every points tensor and 4×4 transformation of matching dtype and
device, `Transform` raises the fatal "invalid transformation" error iff at
least one of the nine rotation-block entries (row-major flat indices
0,1,2,4,5,6,8,9,10) exceeds 1 or at least one bottom-row entry (flat 12,13,14)
is nonzero; rewriting the translation entries (flat 3,7,11) and the corner
entry (flat 15) never changes the decision. -/
theorem transform_invalid_error_iff (points transformation : Tensor) (b : Bool)
    (hsh : transformation.shape = [4, 4]) (hlen : transformation.values.length = 16)
    (hdt : transformation.dtype = points.dtype)
    (hdev : transformation.device = points.device) :
    (((Transform1 points transformation b).err = some KErr.invalidTransformation) ↔
      ((∃ i ∈ ([0, 1, 2, 4, 5, 6, 8, 9, 10] : List Nat),
          1 < transformation.values.getD i 0) ∨
        ∃ i ∈ ([12, 13, 14] : List Nat), transformation.values.getD i 0 ≠ 0)) ∧
    ∀ q3 q7 q11 q15 : ℚ,
      ((Transform1 points
            { transformation with
              values :=
                (((transformation.values.set 3 q3).set 7 q7).set 11 q11).set 15 q15 }
            b).err =
          some KErr.invalidTransformation ↔
        (Transform1 points transformation b).err = some KErr.invalidTransformation) := by
  constructor
  · rw [Transform1_err_invalid_iff points transformation b hsh hdt hdev,
      IsValidRigidTransformation_eq_false_iff]
    simp only [List.mem_cons, List.not_mem_nil, or_false, exists_eq_or_imp,
      exists_eq_left]
    tauto
  · intro q3 q7 q11 q15
    rw [Transform1_err_invalid_iff points
        { transformation with
          values :=
            (((transformation.values.set 3 q3).set 7 q7).set 11 q11).set 15 q15 }
        b hsh hdt hdev,
      Transform1_err_invalid_iff points transformation b hsh hdt hdev,
      IsValidRigidTransformation_eq_false_iff, IsValidRigidTransformation_eq_false_iff]
    simp [getD_set_unchecked]

/-- Witness for C1 at the concrete sample input: the valid translation-only
matrix is not rejected, and rewriting its unchecked entries keeps that. -/
theorem transform_invalid_error_iff_witness :
    tSample.shape = [4, 4] ∧ tSample.values.length = 16 ∧
    tSample.dtype = pSample.dtype ∧ tSample.device = pSample.device ∧
    (((Transform1 pSample tSample true).err = some KErr.invalidTransformation) ↔
      ((∃ i ∈ ([0, 1, 2, 4, 5, 6, 8, 9, 10] : List Nat),
          1 < tSample.values.getD i 0) ∨
        ∃ i ∈ ([12, 13, 14] : List Nat), tSample.values.getD i 0 ≠ 0)) ∧
    (((Transform1 pSample
          { tSample with
            values := (((tSample.values.set 3 9).set 7 9).set 11 9).set 15 9 }
          true).err =
        some KErr.invalidTransformation) ↔
      (Transform1 pSample tSample true).err = some KErr.invalidTransformation) :=
  ⟨rfl, by decide, rfl, rfl,
    (transform_invalid_error_iff pSample tSample true rfl (by decide) rfl rfl).1,
    (transform_invalid_error_iff pSample tSample true rfl (by decide) rfl rfl).2 9 9 9 9⟩

/-! ### Claim C2 -/

/-- C2: on a transformation that fails the rigid-transform validity check
(with the preceding assertions passing), both `Transform` overloads abort
with the fatal error before any backend kernel runs, and the caller's points
and normals are exactly the original tensors — no partial mutation. -/
theorem transform_invalid_no_mutation (points normals transformation : Tensor)
    (b : Bool) (hsh : transformation.shape = [4, 4])
    (hdt : transformation.dtype = points.dtype)
    (hdev : transformation.device = points.device)
    (hdtn : normals.dtype = points.dtype) (hdevn : normals.device = points.device)
    (hbad : IsValidRigidTransformation transformation.values = false) :
    Transform1 points transformation b =
      ⟨some KErr.invalidTransformation, points, false⟩ ∧
    Transform2 points normals transformation b =
      ⟨some KErr.invalidTransformation, points, normals, false⟩ := by
  constructor
  · unfold Transform1
    rw [if_neg (by simp [hsh]), if_neg (by simp [hdt]), if_neg (by simp [hdev])]
    simp only [To_values, hbad]
    simp
  · unfold Transform2
    rw [if_neg (by simp [hsh]), if_neg (by simp [hdt]), if_neg (by simp [hdtn]),
      if_neg (by simp [hdev]), if_neg (by simp [hdevn])]
    simp only [To_values, hbad]
    simp

/-- Witness for C2: a matrix with a 2 in the rotation block is rejected by
both overloads with the buffers untouched. -/
theorem transform_invalid_no_mutation_witness :
    Transform1 pSample tBadSample true =
      ⟨some KErr.invalidTransformation, pSample, false⟩ ∧
    Transform2 pSample nSample tBadSample true =
      ⟨some KErr.invalidTransformation, pSample, nSample, false⟩ :=
  transform_invalid_no_mutation pSample nSample tBadSample true rfl rfl rfl rfl rfl
    (by decide)

/-! ### Claim C8 -/

/-- C8: for both `Transform` overloads, a transformation that is not 4×4, or
any dtype or device disagreement among points, normals (when supplied) and
the transformation, aborts the call with the corresponding precondition error
— no kernel runs, no implicit cast or transfer is performed, and the caller's
tensors are untouched. -/
theorem transform_mismatch_fatal (points normals transformation : Tensor) (b : Bool) :
    (transformation.shape ≠ [4, 4] ∨ transformation.dtype ≠ points.dtype ∨
        transformation.device ≠ points.device →
      ∃ e, (e = KErr.badShape ∨ e = KErr.badDtype ∨ e = KErr.badDevice) ∧
        Transform1 points transformation b = ⟨some e, points, false⟩) ∧
    (transformation.shape ≠ [4, 4] ∨ transformation.dtype ≠ points.dtype ∨
        normals.dtype ≠ points.dtype ∨ transformation.device ≠ points.device ∨
        normals.device ≠ points.device →
      ∃ e, (e = KErr.badShape ∨ e = KErr.badDtype ∨ e = KErr.badDevice) ∧
        Transform2 points normals transformation b =
          ⟨some e, points, normals, false⟩) := by
  constructor
  · intro h
    by_cases h1 : transformation.shape = [4, 4]
    · by_cases h2 : transformation.dtype = points.dtype
      · by_cases h3 : transformation.device = points.device
        · rcases h with h | h | h <;> contradiction
        · exact ⟨KErr.badDevice, Or.inr (Or.inr rfl), by
            unfold Transform1
            rw [if_neg (by simp [h1]), if_neg (by simp [h2]), if_pos h3]⟩
      · exact ⟨KErr.badDtype, Or.inr (Or.inl rfl), by
          unfold Transform1
          rw [if_neg (by simp [h1]), if_pos h2]⟩
    · exact ⟨KErr.badShape, Or.inl rfl, by unfold Transform1; rw [if_pos h1]⟩
  · intro h
    by_cases h1 : transformation.shape = [4, 4]
    · by_cases h2 : transformation.dtype = points.dtype
      · by_cases h2n : normals.dtype = points.dtype
        · by_cases h3 : transformation.device = points.device
          · by_cases h3n : normals.device = points.device
            · rcases h with h | h | h | h | h <;> contradiction
            · exact ⟨KErr.badDevice, Or.inr (Or.inr rfl), by
                unfold Transform2
                rw [if_neg (by simp [h1]), if_neg (by simp [h2]),
                  if_neg (by simp [h2n]), if_neg (by simp [h3]), if_pos h3n]⟩
          · exact ⟨KErr.badDevice, Or.inr (Or.inr rfl), by
              unfold Transform2
              rw [if_neg (by simp [h1]), if_neg (by simp [h2]),
                if_neg (by simp [h2n]), if_pos h3]⟩
        · exact ⟨KErr.badDtype, Or.inr (Or.inl rfl), by
            unfold Transform2
            rw [if_neg (by simp [h1]), if_neg (by simp [h2]), if_pos h2n]⟩
      · exact ⟨KErr.badDtype, Or.inr (Or.inl rfl), by
          unfold Transform2
          rw [if_neg (by simp [h1]), if_pos h2]⟩
    · exact ⟨KErr.badShape, Or.inl rfl, by unfold Transform2; rw [if_pos h1]⟩

/-- Witness for C8: a float64 transformation against float32 points is
rejected by both overloads. -/
theorem transform_mismatch_fatal_witness :
    (∃ e, (e = KErr.badShape ∨ e = KErr.badDtype ∨ e = KErr.badDevice) ∧
      Transform1 pSample { tSample with dtype := Dtype.float64 } true =
        ⟨some e, pSample, false⟩) ∧
    ∃ e, (e = KErr.badShape ∨ e = KErr.badDtype ∨ e = KErr.badDevice) ∧
      Transform2 pSample nSample { tSample with dtype := Dtype.float64 } true =
        ⟨some e, pSample, nSample, false⟩ :=
  ⟨(transform_mismatch_fatal pSample nSample { tSample with dtype := Dtype.float64 }
      true).1 (Or.inr (Or.inl (by decide))),
    (transform_mismatch_fatal pSample nSample { tSample with dtype := Dtype.float64 }
      true).2 (Or.inr (Or.inl (by decide)))⟩

/-! ### Claim C3 -/

/-- A non-contiguous CPU float32 (1, 3) points tensor at the origin. -/
def pNonContig : Tensor := ⟨[1, 3], Dtype.float32, ⟨DeviceType.cpu, 0⟩, false, 0, [0, 0, 0]⟩

/-- A valid rigid transformation translating by (1, 2, 3). -/
def tShift : Tensor :=
  ⟨[4, 4], Dtype.float32, ⟨DeviceType.cpu, 0⟩, true, 1,
    [1, 0, 0, 1, 0, 1, 0, 2, 0, 0, 1, 3, 0, 0, 0, 1]⟩

/-- C3 (evaluation at the failing input): transforming a non-contiguous
points tensor by a pure translation succeeds and runs the kernel, the kernel
math carries the origin to (1, 2, 3), yet the caller's variable ends up
holding the untransformed values in a forced-contiguous buffer: the kernel
was invoked on the original handle while the stale pre-kernel contiguous
copy was assigned back, so neither is the transformed data delivered nor the
original layout restored. -/
theorem transform_noncontiguous_discards_result :
    (Transform1 pNonContig tShift true).err = none ∧
    (Transform1 pNonContig tShift true).kernelRan = true ∧
    transformPointsVals tShift.values pNonContig.values = [1, 2, 3] ∧
    (Transform1 pNonContig tShift true).points.values = [0, 0, 0] ∧
    pNonContig.contiguous = false ∧
    (Transform1 pNonContig tShift true).points.contiguous = true := by
  refine ⟨by decide, by decide, ?_, by decide, rfl, by decide⟩
  have h : transformPointsVals tShift.values pNonContig.values =
      [1 * 0 + 0 * 0 + 0 * 0 + 1, 0 * 0 + 1 * 0 + 0 * 0 + 2,
        0 * 0 + 0 * 0 + 1 * 0 + 3] := rfl
  rw [h]
  norm_num

/-! ### Claims C7 and C10 -/

theorem transformPointRow_eyeVals (x y z : ℚ) :
    transformPointRow eyeVals x y z = [x, y, z] := by
  have h : transformPointRow eyeVals x y z =
      [1 * x + 0 * y + 0 * z + 0, 0 * x + 1 * y + 0 * z + 0,
        0 * x + 0 * y + 1 * z + 0] := rfl
  rw [h]
  norm_num

theorem transformNormalRow_eyeVals (x y z : ℚ) :
    transformNormalRow eyeVals x y z = [x, y, z] := by
  have h : transformNormalRow eyeVals x y z =
      [1 * x + 0 * y + 0 * z, 0 * x + 1 * y + 0 * z, 0 * x + 0 * y + 1 * z] := rfl
  rw [h]
  norm_num

theorem transformPointsVals_eyeVals : ∀ l : List ℚ, transformPointsVals eyeVals l = l
  | [] => rfl
  | [_] => rfl
  | [_, _] => rfl
  | x :: y :: z :: rest => by
    rw [show transformPointsVals eyeVals (x :: y :: z :: rest) =
        transformPointRow eyeVals x y z ++ transformPointsVals eyeVals rest from rfl,
      transformPointRow_eyeVals, transformPointsVals_eyeVals rest]
    rfl

theorem transformNormalsVals_eyeVals : ∀ l : List ℚ, transformNormalsVals eyeVals l = l
  | [] => rfl
  | [_] => rfl
  | [_, _] => rfl
  | x :: y :: z :: rest => by
    rw [show transformNormalsVals eyeVals (x :: y :: z :: rest) =
        transformNormalRow eyeVals x y z ++ transformNormalsVals eyeVals rest from rfl,
      transformNormalRow_eyeVals, transformNormalsVals_eyeVals rest]
    rfl

theorem writeBuffer_values (t : Tensor) (bid : Nat) (nv : List ℚ) :
    (writeBuffer t bid nv).values = if t.id = bid then nv else t.values := by
  unfold writeBuffer
  split <;> rfl

theorem writeBuffer_id (t : Tensor) (bid : Nat) (nv : List ℚ) :
    (writeBuffer t bid nv).id = t.id := by
  unfold writeBuffer
  split <;> rfl

theorem kernelWrite2_values (t : Tensor) (pid : Nat) (newP : List ℚ) (nid : Nat)
    (newN : List ℚ) :
    (kernelWrite2 t pid newP nid newN).values =
      if t.id = nid then newN else if t.id = pid then newP else t.values := by
  unfold kernelWrite2
  rw [writeBuffer_values, writeBuffer_id, writeBuffer_values]

/-- The identity's entries pass the rigid-transform validity check. -/
theorem IsValid_eyeVals : IsValidRigidTransformation eyeVals = true := by decide

/-- The successful branch of the points-plus-normals `Transform`. -/
theorem Transform2_ok (points normals transformation : Tensor) (b : Bool)
    (hsh : transformation.shape = [4, 4]) (hdt : transformation.dtype = points.dtype)
    (hdtn : normals.dtype = points.dtype) (hdev : transformation.device = points.device)
    (hdevn : normals.device = points.device)
    (hval : IsValidRigidTransformation transformation.values = true)
    (hrun : points.device.dtyp = DeviceType.cpu ∨
      (points.device.dtyp = DeviceType.cuda ∧ b = true)) :
    Transform2 points normals transformation b =
      (let base := points.id + normals.id + transformation.id
      let tc := tensorContiguous transformation (base + 3)
      let newP := transformPointsVals tc.values points.values
      let newN := transformNormalsVals tc.values normals.values
      ⟨none, kernelWrite2 (tensorContiguous points (base + 1)) points.id newP
          normals.id newN,
        kernelWrite2 (tensorContiguous normals (base + 2)) points.id newP
          normals.id newN, true⟩) := by
  unfold Transform2
  rw [if_neg (by simp [hsh]), if_neg (by simp [hdt]), if_neg (by simp [hdtn]),
    if_neg (by simp [hdev]), if_neg (by simp [hdevn]),
    if_neg (not_not_intro (show IsValidRigidTransformation
      (transformation.To host Dtype.float64).values = true from hval))]
  rcases hrun with hcpu | ⟨hcuda, hb⟩
  · rw [if_pos hcpu]
  · rw [if_neg (by simp [hcuda]), if_pos hcuda, hb, if_pos rfl]

/-- C7: applying `Transform` with the 4×4 identity matrix of the points'
dtype and device succeeds — the identity passes the rigid-transform
validation — and every point and normal value is exactly unchanged. -/
theorem transform_identity_noop (points normals : Tensor) (bid : Nat) (b : Bool)
    (hdtn : normals.dtype = points.dtype) (hdevn : normals.device = points.device)
    (hid : points.id ≠ normals.id)
    (hrun : points.device.dtyp = DeviceType.cpu ∨
      (points.device.dtyp = DeviceType.cuda ∧ b = true)) :
    (Transform2 points normals (eye4 points.dtype points.device bid) b).err = none ∧
    (Transform2 points normals (eye4 points.dtype points.device bid) b).points.values =
      points.values ∧
    (Transform2 points normals (eye4 points.dtype points.device bid) b).normals.values =
      normals.values := by
  rw [Transform2_ok points normals (eye4 points.dtype points.device bid) b rfl rfl hdtn
    rfl hdevn IsValid_eyeVals hrun]
  refine ⟨rfl, ?_, ?_⟩
  · have e1 : points.id + normals.id + bid + 1 ≠ normals.id := by omega
    have e2 : points.id + normals.id + bid + 1 ≠ points.id := by omega
    cases hc : points.contiguous with
    | true => simp [kernelWrite2_values, eye4, tensorContiguous, hc,
        transformPointsVals_eyeVals, transformNormalsVals_eyeVals, hid]
    | false => simp [kernelWrite2_values, eye4, tensorContiguous, hc,
        transformPointsVals_eyeVals, transformNormalsVals_eyeVals, e1, e2]
  · have e3 : points.id + normals.id + bid + 2 ≠ normals.id := by omega
    have e4 : points.id + normals.id + bid + 2 ≠ points.id := by omega
    cases hc : normals.contiguous with
    | true => simp [kernelWrite2_values, eye4, tensorContiguous, hc,
        transformPointsVals_eyeVals, transformNormalsVals_eyeVals]
    | false => simp [kernelWrite2_values, eye4, tensorContiguous, hc,
        transformPointsVals_eyeVals, transformNormalsVals_eyeVals, e3, e4]

/-- Witness for C7: the identity leaves the sample points and normals
unchanged. -/
theorem transform_identity_noop_witness :
    pSample.id ≠ nSample.id ∧
    (Transform2 pSample nSample (eye4 pSample.dtype pSample.device 7) true).err = none ∧
    (Transform2 pSample nSample (eye4 pSample.dtype pSample.device 7) true).points.values =
      pSample.values ∧
    (Transform2 pSample nSample (eye4 pSample.dtype pSample.device 7) true).normals.values =
      nSample.values :=
  ⟨by decide,
    transform_identity_noop pSample nSample 7 true rfl rfl (by decide) (Or.inl rfl)⟩

/-- C10: the accept/reject decision of the rigid-transform validity check in
`Transform` is a function of the transformation's logical entry values alone:
two 4×4 transformations with equal entry values — whatever their dtype,
device, contiguity or buffer — are either both rejected with the
invalid-transformation error or both not. -/
theorem transform_validity_value_determined (p1 p2 t1 t2 : Tensor) (b1 b2 : Bool)
    (hv : t1.values = t2.values)
    (hsh1 : t1.shape = [4, 4]) (hdt1 : t1.dtype = p1.dtype)
    (hdev1 : t1.device = p1.device)
    (hsh2 : t2.shape = [4, 4]) (hdt2 : t2.dtype = p2.dtype)
    (hdev2 : t2.device = p2.device) :
    ((Transform1 p1 t1 b1).err = some KErr.invalidTransformation ↔
      (Transform1 p2 t2 b2).err = some KErr.invalidTransformation) := by
  rw [Transform1_err_invalid_iff p1 t1 b1 hsh1 hdt1 hdev1,
    Transform1_err_invalid_iff p2 t2 b2 hsh2 hdt2 hdev2, hv]

/-- Witness for C10: the same invalid entries presented on a contiguous CPU
float32 tensor and on a non-contiguous CUDA float64 tensor are rejected
alike. -/
theorem transform_validity_value_determined_witness :
    ((Transform1 pSample tBadSample true).err = some KErr.invalidTransformation ↔
      (Transform1 ⟨[1, 3], Dtype.float64, ⟨DeviceType.cuda, 0⟩, true, 4, [1, 2, 3]⟩
          ⟨[4, 4], Dtype.float64, ⟨DeviceType.cuda, 0⟩, false, 5,
            [2, 0, 0, 0, 0, 1, 0, 0, 0, 0, 1, 0, 0, 0, 0, 1]⟩ false).err =
        some KErr.invalidTransformation) :=
  transform_validity_value_determined pSample
    ⟨[1, 3], Dtype.float64, ⟨DeviceType.cuda, 0⟩, true, 4, [1, 2, 3]⟩ tBadSample
    ⟨[4, 4], Dtype.float64, ⟨DeviceType.cuda, 0⟩, false, 5,
      [2, 0, 0, 0, 0, 1, 0, 0, 0, 0, 1, 0, 0, 0, 0, 1]⟩ true false (by decide) rfl rfl
    rfl rfl rfl rfl

/-! ### Claim C4 -/

theorem normalized_props (t : Tensor) (fresh : Nat) :
    (tensorContiguous (t.To host Dtype.float64) fresh).device = host ∧
    (tensorContiguous (t.To host Dtype.float64) fresh).dtype = Dtype.float64 ∧
    (tensorContiguous (t.To host Dtype.float64) fresh).contiguous = true ∧
    (tensorContiguous (t.To host Dtype.float64) fresh).values = t.values := by
  simp [tensorContiguous, Tensor.To]

/-- C4 (counterexample): a `Project` call on CPU with float32 intrinsics and
extrinsics hands both to the backend exactly as received — no host/float64
normalization — and a `CreateVertexMap` call whose intrinsics live on another
device raises a fatal mismatch error rather than normalizing them to host. -/
theorem project_no_matrix_normalization :
    Project ⟨[2, 2], Dtype.float32, ⟨DeviceType.cpu, 0⟩, true, 0, [0, 0, 0, 0]⟩ none
        pSample none
        ⟨[3, 3], Dtype.float32, ⟨DeviceType.cpu, 0⟩, true, 3, [1, 0, 0, 0, 1, 0, 0, 0, 1]⟩
        ⟨[4, 4], Dtype.float32, ⟨DeviceType.cpu, 0⟩, true, 4, eyeVals⟩ 1 10 true =
      Except.ok ⟨DeviceType.cpu,
        ⟨[3, 3], Dtype.float32, ⟨DeviceType.cpu, 0⟩, true, 3, [1, 0, 0, 0, 1, 0, 0, 0, 1]⟩,
        ⟨[4, 4], Dtype.float32, ⟨DeviceType.cpu, 0⟩, true, 4, eyeVals⟩⟩ ∧
    Dtype.float32 ≠ Dtype.float64 ∧
    CreateVertexMap ⟨[2, 2], Dtype.float32, ⟨DeviceType.cpu, 0⟩, true, 0, [0, 0, 0, 0]⟩
        ⟨[3, 3], Dtype.float64, ⟨DeviceType.cuda, 0⟩, true, 3, [1, 0, 0, 0, 1, 0, 0, 0, 1]⟩
        1 10 true =
      Except.error KErr.deviceMismatch :=
  ⟨rfl, by decide, rfl⟩

/-- C4 (amended): `Unproject` normalizes intrinsics and extrinsics to host
float64 contiguous tensors carrying the same entry values before the backend
uses them, whatever the depth image's device; `Project` hands intrinsics and
extrinsics to the backend exactly as received; `CreateVertexMap` requires the
intrinsics to share the depth map's device (fatal mismatch error otherwise)
and hands them to the backend unchanged. -/
theorem matrix_normalization_per_op :
    (∀ (depth : Tensor) (ic : Option Tensor) (pts : Tensor) (cs : Option Tensor)
        (intr extr : Tensor) (ds dm : ℚ) (st : Int) (built : Bool)
        (call : ImageKernelCall),
      Unproject depth ic pts cs intr extr ds dm st built = Except.ok call →
        call.intrinsics.device = host ∧ call.intrinsics.dtype = Dtype.float64 ∧
        call.intrinsics.contiguous = true ∧ call.intrinsics.values = intr.values ∧
        call.extrinsics.device = host ∧ call.extrinsics.dtype = Dtype.float64 ∧
        call.extrinsics.contiguous = true ∧ call.extrinsics.values = extr.values) ∧
    (∀ (depth : Tensor) (ic : Option Tensor) (pts : Tensor) (cs : Option Tensor)
        (intr extr : Tensor) (ds dm : ℚ) (built : Bool) (call : ImageKernelCall),
      Project depth ic pts cs intr extr ds dm built = Except.ok call →
        call.intrinsics = intr ∧ call.extrinsics = extr) ∧
    ∀ (depth_map intr : Tensor) (ds dm : ℚ) (built : Bool),
      (depth_map.device ≠ intr.device →
        CreateVertexMap depth_map intr ds dm built = Except.error KErr.deviceMismatch) ∧
      ∀ call : VertexMapCall,
        CreateVertexMap depth_map intr ds dm built = Except.ok call →
          call.intrinsics = intr := by
  refine ⟨?_, ?_, ?_⟩
  · intro depth ic pts cs intr extr ds dm st built call h
    obtain ⟨i1, i2, i3, i4⟩ := normalized_props intr intr.id
    obtain ⟨e1, e2, e3, e4⟩ := normalized_props extr extr.id
    by_cases h1 : ic.isSome ≠ cs.isSome
    · rw [Unproject, if_pos h1] at h
      exact absurd h (by simp)
    · rw [Unproject, if_neg h1] at h
      by_cases h2 : depth.device.dtyp = DeviceType.cpu
      · rw [if_pos h2] at h
        injection h with h
        subst h
        exact ⟨i1, i2, i3, i4, e1, e2, e3, e4⟩
      · rw [if_neg h2] at h
        by_cases h3 : depth.device.dtyp = DeviceType.cuda
        · rw [if_pos h3] at h
          cases built with
          | true =>
            rw [if_pos rfl] at h
            injection h with h
            subst h
            exact ⟨i1, i2, i3, i4, e1, e2, e3, e4⟩
          | false =>
            rw [if_neg (by simp)] at h
            exact absurd h (by simp)
        · rw [if_neg h3] at h
          exact absurd h (by simp)
  · intro depth ic pts cs intr extr ds dm built call h
    by_cases h1 : ic.isSome ≠ cs.isSome
    · rw [Project, if_pos h1] at h
      exact absurd h (by simp)
    · rw [Project, if_neg h1] at h
      by_cases h2 : depth.device.dtyp = DeviceType.cpu
      · rw [if_pos h2] at h
        injection h with h
        subst h
        exact ⟨rfl, rfl⟩
      · rw [if_neg h2] at h
        by_cases h3 : depth.device.dtyp = DeviceType.cuda
        · rw [if_pos h3] at h
          cases built with
          | true =>
            rw [if_pos rfl] at h
            injection h with h
            subst h
            exact ⟨rfl, rfl⟩
          | false =>
            rw [if_neg (by simp)] at h
            exact absurd h (by simp)
        · rw [if_neg h3] at h
          exact absurd h (by simp)
  · intro depth_map intr ds dm built
    constructor
    · intro hne
      rw [CreateVertexMap, if_pos hne]
    · intro call h
      by_cases h1 : depth_map.device ≠ intr.device
      · rw [CreateVertexMap, if_pos h1] at h
        exact absurd h (by simp)
      · rw [CreateVertexMap, if_neg h1] at h
        by_cases h2 : depth_map.device.dtyp = DeviceType.cpu
        · rw [if_pos h2] at h
          injection h with h
          subst h
          rfl
        · rw [if_neg h2] at h
          by_cases h3 : depth_map.device.dtyp = DeviceType.cuda
          · rw [if_pos h3] at h
            cases built with
            | true =>
              rw [if_pos rfl] at h
              injection h with h
              subst h
              rfl
            | false =>
              rw [if_neg (by simp)] at h
              exact absurd h (by simp)
          · rw [if_neg h3] at h
            exact absurd h (by simp)

/-- Witness for the amended C4: a concrete CUDA-depth `Unproject` still hands
the backend host float64 matrices, a concrete `Project` hands its float32
matrices through, and a concrete `CreateVertexMap` hands its intrinsics
through. -/
theorem matrix_normalization_per_op_witness :
    ((Unproject ⟨[2, 2], Dtype.float32, ⟨DeviceType.cuda, 0⟩, true, 0, [0, 0, 0, 0]⟩ none
        pSample none
        ⟨[3, 3], Dtype.float32, ⟨DeviceType.cuda, 0⟩, false, 3, [1, 0, 0, 0, 1, 0, 0, 0, 1]⟩
        ⟨[4, 4], Dtype.float32, ⟨DeviceType.cuda, 0⟩, true, 4, eyeVals⟩ 1 10 1
        true).toOption.map (fun c => (c.intrinsics.device, c.intrinsics.dtype,
          c.intrinsics.values)) =
      some (host, Dtype.float64, [1, 0, 0, 0, 1, 0, 0, 0, 1]) ∧
    (Project ⟨[2, 2], Dtype.float32, ⟨DeviceType.cpu, 0⟩, true, 0, [0, 0, 0, 0]⟩ none
        pSample none
        ⟨[3, 3], Dtype.float32, ⟨DeviceType.cpu, 0⟩, true, 3, [1, 0, 0, 0, 1, 0, 0, 0, 1]⟩
        ⟨[4, 4], Dtype.float32, ⟨DeviceType.cpu, 0⟩, true, 4, eyeVals⟩ 1 10
        true).toOption.map (fun c => c.intrinsics) =
      some ⟨[3, 3], Dtype.float32, ⟨DeviceType.cpu, 0⟩, true, 3, [1, 0, 0, 0, 1, 0, 0, 0, 1]⟩ ∧
    (CreateVertexMap ⟨[2, 2], Dtype.float32, ⟨DeviceType.cpu, 0⟩, true, 0, [0, 0, 0, 0]⟩
        ⟨[3, 3], Dtype.float32, ⟨DeviceType.cpu, 0⟩, true, 3, [1, 0, 0, 0, 1, 0, 0, 0, 1]⟩
        1 10 true).toOption.map (fun c => c.intrinsics) =
      some ⟨[3, 3], Dtype.float32, ⟨DeviceType.cpu, 0⟩, true, 3, [1, 0, 0, 0, 1, 0, 0, 0, 1]⟩) := by
  obtain ⟨a1, a2, -, a4, -, -, -, -⟩ :=
    (matrix_normalization_per_op).1
      ⟨[2, 2], Dtype.float32, ⟨DeviceType.cuda, 0⟩, true, 0, [0, 0, 0, 0]⟩ none pSample none
      ⟨[3, 3], Dtype.float32, ⟨DeviceType.cuda, 0⟩, false, 3, [1, 0, 0, 0, 1, 0, 0, 0, 1]⟩
      ⟨[4, 4], Dtype.float32, ⟨DeviceType.cuda, 0⟩, true, 4, eyeVals⟩ 1 10 1 true _ rfl
  obtain ⟨b1, -⟩ :=
    (matrix_normalization_per_op).2.1
      ⟨[2, 2], Dtype.float32, ⟨DeviceType.cpu, 0⟩, true, 0, [0, 0, 0, 0]⟩ none pSample none
      ⟨[3, 3], Dtype.float32, ⟨DeviceType.cpu, 0⟩, true, 3, [1, 0, 0, 0, 1, 0, 0, 0, 1]⟩
      ⟨[4, 4], Dtype.float32, ⟨DeviceType.cpu, 0⟩, true, 4, eyeVals⟩ 1 10 true _ rfl
  have c1 :=
    ((matrix_normalization_per_op).2.2
      ⟨[2, 2], Dtype.float32, ⟨DeviceType.cpu, 0⟩, true, 0, [0, 0, 0, 0]⟩
      ⟨[3, 3], Dtype.float32, ⟨DeviceType.cpu, 0⟩, true, 3, [1, 0, 0, 0, 1, 0, 0, 0, 1]⟩
      1 10 true).2 _ rfl
  refine ⟨?_, ?_, ?_⟩
  · rw [show (Unproject ⟨[2, 2], Dtype.float32, ⟨DeviceType.cuda, 0⟩, true, 0, [0, 0, 0, 0]⟩
      none pSample none
      ⟨[3, 3], Dtype.float32, ⟨DeviceType.cuda, 0⟩, false, 3, [1, 0, 0, 0, 1, 0, 0, 0, 1]⟩
      ⟨[4, 4], Dtype.float32, ⟨DeviceType.cuda, 0⟩, true, 4, eyeVals⟩ 1 10 1
      true).toOption = some ⟨DeviceType.cuda,
        tensorContiguous ((⟨[3, 3], Dtype.float32, ⟨DeviceType.cuda, 0⟩, false, 3,
          [1, 0, 0, 0, 1, 0, 0, 0, 1]⟩ : Tensor).To host Dtype.float64) 3,
        tensorContiguous ((⟨[4, 4], Dtype.float32, ⟨DeviceType.cuda, 0⟩, true, 4,
          eyeVals⟩ : Tensor).To host Dtype.float64) 4⟩ from rfl]
    rw [Option.map_some']
    rw [a1, a2, a4]
  · rw [show (Project ⟨[2, 2], Dtype.float32, ⟨DeviceType.cpu, 0⟩, true, 0, [0, 0, 0, 0]⟩
      none pSample none
      ⟨[3, 3], Dtype.float32, ⟨DeviceType.cpu, 0⟩, true, 3, [1, 0, 0, 0, 1, 0, 0, 0, 1]⟩
      ⟨[4, 4], Dtype.float32, ⟨DeviceType.cpu, 0⟩, true, 4, eyeVals⟩ 1 10
      true).toOption = some ⟨DeviceType.cpu,
        ⟨[3, 3], Dtype.float32, ⟨DeviceType.cpu, 0⟩, true, 3, [1, 0, 0, 0, 1, 0, 0, 0, 1]⟩,
        ⟨[4, 4], Dtype.float32, ⟨DeviceType.cpu, 0⟩, true, 4, eyeVals⟩⟩ from rfl]
    rw [Option.map_some']
  · rw [show (CreateVertexMap ⟨[2, 2], Dtype.float32, ⟨DeviceType.cpu, 0⟩, true, 0,
      [0, 0, 0, 0]⟩
      ⟨[3, 3], Dtype.float32, ⟨DeviceType.cpu, 0⟩, true, 3, [1, 0, 0, 0, 1, 0, 0, 0, 1]⟩
      1 10 true).toOption = some ⟨DeviceType.cpu,
        ⟨[3, 3], Dtype.float32, ⟨DeviceType.cpu, 0⟩, true, 3,
          [1, 0, 0, 0, 1, 0, 0, 0, 1]⟩⟩ from rfl]
    rw [Option.map_some']

/-! ### Claim C6 -/

/-- C6: in both `Unproject` and `Project` the paired-optional check comes
first: when exactly one of image_colors/colors is present the call fails with
the fatal pairing error before any dispatch, and when both or neither are
present the call never reports the pairing error. -/
theorem color_pairing_check (depth : Tensor) (ic : Option Tensor) (pts : Tensor)
    (cs : Option Tensor) (intr extr : Tensor) (ds dm : ℚ) (st : Int) (built : Bool) :
    (ic.isSome ≠ cs.isSome →
      Unproject depth ic pts cs intr extr ds dm st built =
        Except.error KErr.pairMismatch ∧
      Project depth ic pts cs intr extr ds dm built = Except.error KErr.pairMismatch) ∧
    (ic.isSome = cs.isSome →
      Unproject depth ic pts cs intr extr ds dm st built ≠
        Except.error KErr.pairMismatch ∧
      Project depth ic pts cs intr extr ds dm built ≠
        Except.error KErr.pairMismatch) := by
  constructor
  · intro h
    exact ⟨by rw [Unproject, if_pos h], by rw [Project, if_pos h]⟩
  · intro h
    have h' : ¬ ic.isSome ≠ cs.isSome := by simp [h]
    constructor
    · rw [Unproject, if_neg h']
      by_cases h2 : depth.device.dtyp = DeviceType.cpu
      · rw [if_pos h2]
        simp
      · rw [if_neg h2]
        by_cases h3 : depth.device.dtyp = DeviceType.cuda
        · rw [if_pos h3]
          cases built <;> simp
        · rw [if_neg h3]
          simp
    · rw [Project, if_neg h']
      by_cases h2 : depth.device.dtyp = DeviceType.cpu
      · rw [if_pos h2]
        simp
      · rw [if_neg h2]
        by_cases h3 : depth.device.dtyp = DeviceType.cuda
        · rw [if_pos h3]
          cases built <;> simp
        · rw [if_neg h3]
          simp

/-- Witness for C6: a lone colors argument triggers the pairing error in both
operations, and the all-absent form never reports it. -/
theorem color_pairing_check_witness :
    (Unproject pSample none pSample (some nSample) tSample tSample 1 10 1 true =
        Except.error KErr.pairMismatch ∧
      Project pSample none pSample (some nSample) tSample tSample 1 10 true =
        Except.error KErr.pairMismatch) ∧
    (Unproject pSample none pSample none tSample tSample 1 10 1 true ≠
        Except.error KErr.pairMismatch ∧
      Project pSample none pSample none tSample tSample 1 10 true ≠
        Except.error KErr.pairMismatch) :=
  ⟨(color_pairing_check pSample none pSample (some nSample) tSample tSample 1 10 1
      true).1 (by decide),
    (color_pairing_check pSample none pSample none tSample tSample 1 10 1 true).2
      (by decide)⟩

/-! ### Claim C5 -/

theorem getD_set_self {l : List ℚ} {i : Nat} (h : i < l.length) (a d : ℚ) :
    (l.set i a).getD i d = a := by
  rw [List.getD_eq_getElem?_getD, List.getElem?_set_eq_of_lt a h]
  rfl

/-- C5: two points that project to the same pixel with metric depths 1 and 2
(both valid for the given depth_max, pixel inside the image and initially
empty, depth scale 1) leave stored depth 1 at that pixel in either input
order: the nearest point wins independently of iteration order. -/
theorem project_nearest_wins (img : List ℚ) (pix : Nat) (depth_max : ℚ)
    (hdm : 2 ≤ depth_max) (hlen : pix < img.length) (hempty : img.getD pix 0 = 0) :
    projectScan depth_max 1 img [(pix, 1), (pix, 2)] = img.set pix 1 ∧
    projectScan depth_max 1 img [(pix, 2), (pix, 1)] = img.set pix 1 ∧
    (projectScan depth_max 1 img [(pix, 1), (pix, 2)]).getD pix 0 = 1 ∧
    (projectScan depth_max 1 img [(pix, 2), (pix, 1)]).getD pix 0 = 1 := by
  have h1dm : (1 : ℚ) ≤ depth_max := by linarith
  have g1 : (img.set pix 1).getD pix 0 = 1 := getD_set_self hlen 1 0
  have g2 : (img.set pix 2).getD pix 0 = 2 := getD_set_self hlen 2 0
  have s1 : zbufferWrite depth_max 1 img pix 1 = img.set pix 1 := by
    unfold zbufferWrite
    rw [if_pos ⟨by norm_num, h1dm, hlen⟩, if_pos (Or.inl hempty), mul_one]
  have s2 : zbufferWrite depth_max 1 (img.set pix 1) pix 2 = img.set pix 1 := by
    unfold zbufferWrite
    rw [if_pos ⟨by norm_num, hdm, by rw [List.length_set]; exact hlen⟩,
      if_neg (by rw [g1]; norm_num)]
  have s3 : zbufferWrite depth_max 1 img pix 2 = img.set pix 2 := by
    unfold zbufferWrite
    rw [if_pos ⟨by norm_num, hdm, hlen⟩, if_pos (Or.inl hempty), mul_one]
  have s4 : zbufferWrite depth_max 1 (img.set pix 2) pix 1 = img.set pix 1 := by
    unfold zbufferWrite
    rw [if_pos ⟨by norm_num, h1dm, by rw [List.length_set]; exact hlen⟩,
      if_pos (Or.inr (by rw [g2]; norm_num)), mul_one, List.set_set]
  have e1 : projectScan depth_max 1 img [(pix, 1), (pix, 2)] =
      zbufferWrite depth_max 1 (zbufferWrite depth_max 1 img pix 1) pix 2 := rfl
  have e2 : projectScan depth_max 1 img [(pix, 2), (pix, 1)] =
      zbufferWrite depth_max 1 (zbufferWrite depth_max 1 img pix 2) pix 1 := rfl
  rw [e1, e2, s1, s2, s3, s4]
  exact ⟨rfl, rfl, g1, g1⟩

/-- Witness for C5 on a concrete two-pixel image. -/
theorem project_nearest_wins_witness :
    projectScan 3 1 [0, 0] [(0, 1), (0, 2)] = [0, 0].set 0 1 ∧
    projectScan 3 1 [0, 0] [(0, 2), (0, 1)] = [0, 0].set 0 1 ∧
    (projectScan 3 1 [0, 0] [(0, 1), (0, 2)]).getD 0 0 = 1 ∧
    (projectScan 3 1 [0, 0] [(0, 2), (0, 1)]).getD 0 0 = 1 :=
  project_nearest_wins [0, 0] 0 3 (by norm_num) (by decide) (by decide)

/-! ### Claim C9 -/

/-- A device whose type has no backend. -/
def devOther : Device := ⟨DeviceType.other, 0⟩

/-- A CUDA device. -/
def devCuda : Device := ⟨DeviceType.cuda, 0⟩

/-- Sample tensors on the unimplemented and the CUDA device. -/
def dImgOther : Tensor := ⟨[2, 2], Dtype.float32, devOther, true, 5, [0, 0, 0, 0]⟩

def dImgCuda : Tensor := ⟨[2, 2], Dtype.float32, devCuda, true, 5, [0, 0, 0, 0]⟩

def pOther : Tensor := ⟨[1, 3], Dtype.float32, devOther, true, 0, [1, 2, 3]⟩

def pCuda : Tensor := ⟨[1, 3], Dtype.float32, devCuda, true, 0, [1, 2, 3]⟩

def nOther : Tensor := ⟨[1, 3], Dtype.float32, devOther, true, 1, [0, 0, 1]⟩

def nCuda : Tensor := ⟨[1, 3], Dtype.float32, devCuda, true, 1, [0, 0, 1]⟩

def tOther : Tensor := ⟨[4, 4], Dtype.float32, devOther, true, 2, eyeVals⟩

def tCuda : Tensor := ⟨[4, 4], Dtype.float32, devCuda, true, 2, eyeVals⟩

def iOther : Tensor := ⟨[3, 3], Dtype.float32, devOther, true, 3, [1, 0, 0, 0, 1, 0, 0, 0, 1]⟩

def iCuda : Tensor := ⟨[3, 3], Dtype.float32, devCuda, true, 3, [1, 0, 0, 0, 1, 0, 0, 0, 1]⟩

/-- C9: every operation of the layer fails fatally with "unimplemented
device" on a device type that is neither CPU nor CUDA, and fails fatally with
the configuration error on a CUDA-device input when the CUDA backend was not
compiled in — never a silent CPU fallback — whenever the call passed the
operation's earlier checks. -/
theorem unsupported_device_fatal :
    (∀ (depth : Tensor) (ic : Option Tensor) (pts : Tensor) (cs : Option Tensor)
        (intr extr : Tensor) (ds dm : ℚ) (st : Int) (built : Bool),
      ic.isSome = cs.isSome →
        (depth.device.dtyp = DeviceType.other →
          Unproject depth ic pts cs intr extr ds dm st built =
            Except.error KErr.unimplementedDevice) ∧
        (depth.device.dtyp = DeviceType.cuda →
          Unproject depth ic pts cs intr extr ds dm st false =
            Except.error KErr.cudaNotBuilt)) ∧
    (∀ (depth : Tensor) (ic : Option Tensor) (pts : Tensor) (cs : Option Tensor)
        (intr extr : Tensor) (ds dm : ℚ) (built : Bool),
      ic.isSome = cs.isSome →
        (depth.device.dtyp = DeviceType.other →
          Project depth ic pts cs intr extr ds dm built =
            Except.error KErr.unimplementedDevice) ∧
        (depth.device.dtyp = DeviceType.cuda →
          Project depth ic pts cs intr extr ds dm false =
            Except.error KErr.cudaNotBuilt)) ∧
    (∀ (points transformation : Tensor) (built : Bool),
      transformation.shape = [4, 4] → transformation.dtype = points.dtype →
      transformation.device = points.device →
      IsValidRigidTransformation transformation.values = true →
        (points.device.dtyp = DeviceType.other →
          Transform1 points transformation built =
            ⟨some KErr.unimplementedDevice, points, false⟩) ∧
        (points.device.dtyp = DeviceType.cuda →
          Transform1 points transformation false =
            ⟨some KErr.cudaNotBuilt, points, false⟩)) ∧
    (∀ (points normals transformation : Tensor) (built : Bool),
      transformation.shape = [4, 4] → transformation.dtype = points.dtype →
      normals.dtype = points.dtype → transformation.device = points.device →
      normals.device = points.device →
      IsValidRigidTransformation transformation.values = true →
        (points.device.dtyp = DeviceType.other →
          Transform2 points normals transformation built =
            ⟨some KErr.unimplementedDevice, points, normals, false⟩) ∧
        (points.device.dtyp = DeviceType.cuda →
          Transform2 points normals transformation false =
            ⟨some KErr.cudaNotBuilt, points, normals, false⟩)) ∧
    (∀ (depth_map intr : Tensor) (ds dm : ℚ) (built : Bool),
      depth_map.device = intr.device →
        (depth_map.device.dtyp = DeviceType.other →
          CreateVertexMap depth_map intr ds dm built =
            Except.error KErr.unimplementedDevice) ∧
        (depth_map.device.dtyp = DeviceType.cuda →
          CreateVertexMap depth_map intr ds dm false =
            Except.error KErr.cudaNotBuilt)) ∧
    ∀ (vertex_map : Tensor) (ds dm dd : ℚ) (built : Bool),
      (vertex_map.device.dtyp = DeviceType.other →
        CreateNormalMap vertex_map ds dm dd built =
          Except.error KErr.unimplementedDevice) ∧
      (vertex_map.device.dtyp = DeviceType.cuda →
        CreateNormalMap vertex_map ds dm dd false =
          Except.error KErr.cudaNotBuilt) := by
  refine ⟨?_, ?_, ?_, ?_, ?_, ?_⟩
  · intro depth ic pts cs intr extr ds dm st built hpair
    constructor
    · intro hother
      rw [Unproject, if_neg (by simp [hpair]), if_neg (by simp [hother]),
        if_neg (by simp [hother])]
    · intro hcuda
      rw [Unproject, if_neg (by simp [hpair]), if_neg (by simp [hcuda]),
        if_pos hcuda, if_neg (by simp)]
  · intro depth ic pts cs intr extr ds dm built hpair
    constructor
    · intro hother
      rw [Project, if_neg (by simp [hpair]), if_neg (by simp [hother]),
        if_neg (by simp [hother])]
    · intro hcuda
      rw [Project, if_neg (by simp [hpair]), if_neg (by simp [hcuda]),
        if_pos hcuda, if_neg (by simp)]
  · intro points transformation built hsh hdt hdev hval
    constructor
    · intro hother
      rw [Transform1, if_neg (by simp [hsh]), if_neg (by simp [hdt]),
        if_neg (by simp [hdev]),
        if_neg (not_not_intro (show IsValidRigidTransformation
          (transformation.To host Dtype.float64).values = true from hval))]
      simp [hother]
    · intro hcuda
      rw [Transform1, if_neg (by simp [hsh]), if_neg (by simp [hdt]),
        if_neg (by simp [hdev]),
        if_neg (not_not_intro (show IsValidRigidTransformation
          (transformation.To host Dtype.float64).values = true from hval))]
      simp [hcuda]
  · intro points normals transformation built hsh hdt hdtn hdev hdevn hval
    constructor
    · intro hother
      rw [Transform2, if_neg (by simp [hsh]), if_neg (by simp [hdt]),
        if_neg (by simp [hdtn]), if_neg (by simp [hdev]), if_neg (by simp [hdevn]),
        if_neg (not_not_intro (show IsValidRigidTransformation
          (transformation.To host Dtype.float64).values = true from hval))]
      simp [hother]
    · intro hcuda
      rw [Transform2, if_neg (by simp [hsh]), if_neg (by simp [hdt]),
        if_neg (by simp [hdtn]), if_neg (by simp [hdev]), if_neg (by simp [hdevn]),
        if_neg (not_not_intro (show IsValidRigidTransformation
          (transformation.To host Dtype.float64).values = true from hval))]
      simp [hcuda]
  · intro depth_map intr ds dm built hdev
    constructor
    · intro hother
      rw [CreateVertexMap, if_neg (by simp [hdev]), if_neg (by simp [hother]),
        if_neg (by simp [hother])]
    · intro hcuda
      rw [CreateVertexMap, if_neg (by simp [hdev]), if_neg (by simp [hcuda]),
        if_pos hcuda, if_neg (by simp)]
  · intro vertex_map ds dm dd built
    constructor
    · intro hother
      rw [CreateNormalMap, if_neg (by simp [hother]), if_neg (by simp [hother])]
    · intro hcuda
      rw [CreateNormalMap, if_neg (by simp [hcuda]), if_pos hcuda,
        if_neg (by simp)]

/-- Witness for C9: each operation at a concrete unimplemented-device input
and at a concrete CUDA input without the CUDA backend. -/
theorem unsupported_device_fatal_witness :
    Unproject dImgOther none pSample none tSample tSample 1 10 1 true =
      Except.error KErr.unimplementedDevice ∧
    Unproject dImgCuda none pSample none tSample tSample 1 10 1 false =
      Except.error KErr.cudaNotBuilt ∧
    Project dImgOther none pSample none tSample tSample 1 10 true =
      Except.error KErr.unimplementedDevice ∧
    Project dImgCuda none pSample none tSample tSample 1 10 false =
      Except.error KErr.cudaNotBuilt ∧
    Transform1 pOther tOther true = ⟨some KErr.unimplementedDevice, pOther, false⟩ ∧
    Transform1 pCuda tCuda false = ⟨some KErr.cudaNotBuilt, pCuda, false⟩ ∧
    Transform2 pOther nOther tOther true =
      ⟨some KErr.unimplementedDevice, pOther, nOther, false⟩ ∧
    Transform2 pCuda nCuda tCuda false =
      ⟨some KErr.cudaNotBuilt, pCuda, nCuda, false⟩ ∧
    CreateVertexMap dImgOther iOther 1 10 true =
      Except.error KErr.unimplementedDevice ∧
    CreateVertexMap dImgCuda iCuda 1 10 false = Except.error KErr.cudaNotBuilt ∧
    CreateNormalMap dImgOther 1 10 1 true = Except.error KErr.unimplementedDevice ∧
    CreateNormalMap dImgCuda 1 10 1 false = Except.error KErr.cudaNotBuilt :=
  ⟨(unsupported_device_fatal.1 dImgOther none pSample none tSample tSample 1 10 1
      true rfl).1 rfl,
    (unsupported_device_fatal.1 dImgCuda none pSample none tSample tSample 1 10 1
      false rfl).2 rfl,
    (unsupported_device_fatal.2.1 dImgOther none pSample none tSample tSample 1 10
      true rfl).1 rfl,
    (unsupported_device_fatal.2.1 dImgCuda none pSample none tSample tSample 1 10
      false rfl).2 rfl,
    (unsupported_device_fatal.2.2.1 pOther tOther true rfl rfl rfl
      IsValid_eyeVals).1 rfl,
    (unsupported_device_fatal.2.2.1 pCuda tCuda false rfl rfl rfl
      IsValid_eyeVals).2 rfl,
    (unsupported_device_fatal.2.2.2.1 pOther nOther tOther true rfl rfl rfl rfl rfl
      IsValid_eyeVals).1 rfl,
    (unsupported_device_fatal.2.2.2.1 pCuda nCuda tCuda false rfl rfl rfl rfl rfl
      IsValid_eyeVals).2 rfl,
    (unsupported_device_fatal.2.2.2.2.1 dImgOther iOther 1 10 true rfl).1 rfl,
    (unsupported_device_fatal.2.2.2.2.1 dImgCuda iCuda 1 10 false rfl).2 rfl,
    (unsupported_device_fatal.2.2.2.2.2 dImgOther 1 10 1 true).1 rfl,
    (unsupported_device_fatal.2.2.2.2.2 dImgCuda 1 10 1 false).2 rfl⟩

end O3D
